import Mathlib

/-!
Verification of the content-access layer of the CS55-Week-12 blog
(`src/lib/posts.js`): the three exported operations `getSortedPostsData`,
`getAllPostIds` and `getPostData`, shallowly embedded over an explicit
model of the one upstream fetch each of them performs.

Modelling conventions, matched against the JavaScript source:

* A `RemotePost` is the typed projection of one element of the upstream
  JSON array, keeping exactly the four fields the code reads (`ID`,
  `post_title`, `post_date`, `post_content`); further WordPress fields are
  never consulted by the code and are dropped.
* The outcome of `await got(dataURL)` followed by `JSON.parse` is an
  `Upstream` value: `failure` covers a network error, a non-2xx status
  (`got` raises on those) and a body `JSON.parse` rejects - every path the
  `try/catch` of the source intercepts; `successArray` is a body that
  parses as a JSON array of RemotePost records; `successNonArray` is a
  body that parses as JSON but is not an array, which the `try/catch`
  does not intercept.
* Thrown JavaScript errors are `Except.error`; a normal return is
  `Except.ok`.  `JSON.parse` never yields a callable value, so
  `jsonObj.sort`, `jsonObj.map` and `jsonObj.filter` raise `TypeError`
  exactly when `jsonObj` is not an array; the model raises on the
  `successNonArray` constructor.
* `localeCompare` is an abstract comparator `lc : String → String → Int`
  (negative, zero, positive).  ECMAScript requires `Array.prototype.sort`
  to be stable, and with a consistent comparator its result is the unique
  stable sorted permutation, which `List.mergeSort` computes; the sort in
  `getSortedPostsData` is embedded as `List.mergeSort` under the
  comparator-induced boolean order.
* `new Date().toISOString()` is an explicit parameter `nowISO`, the ISO
  rendering of the invocation instant.
* `console.log` diagnostics affect no returned value and are not modelled.
-/

/-- One record of the upstream JSON array, restricted to the four fields
`posts.js` reads: numeric `ID`, string `post_title`, string `post_date`
(shape "YYYY-MM-DD HH:MM:SS") and string `post_content` (raw HTML). -/
structure RemotePost where
  ID : Int
  post_title : String
  post_date : String
  post_content : String
deriving DecidableEq

/-- The listing shape `getSortedPostsData` returns per post. -/
structure PostSummary where
  id : String
  title : String
  date : String
deriving DecidableEq

/-- The inner object of one element `getAllPostIds` returns. -/
structure RouteParams where
  id : String
deriving DecidableEq

/-- One element of the `getAllPostIds` result: `{ params: { id } }`. -/
structure RouteKey where
  params : RouteParams
deriving DecidableEq

/-- The shape `getPostData` returns: the source names the body field
`contentHtml`. -/
structure PostDetail where
  id : String
  title : String
  date : String
  contentHtml : String
deriving DecidableEq

/-- A parsed JSON value, used to describe response bodies that parse but
are not an array of records. -/
inductive JsonValue where
  | null
  | boolean (b : Bool)
  | number (n : Int)
  | string (s : String)
  | array (elems : List JsonValue)
  | object (fields : List (String × JsonValue))

/-- Whether a parsed JSON value is an array. -/
def JsonValue.isArray : JsonValue → Bool
  | .array _ => true
  | _ => false

/-- A thrown JavaScript error (the model keeps only its message). -/
structure JsError where
  message : String
deriving DecidableEq

/-- The observable outcome of one `got(dataURL)` request followed by
`JSON.parse(response.body)`:

* `failure`: the request raised (network error or non-2xx status) or the
  body was not valid JSON - exactly what the `try/catch` in each of the
  three functions intercepts;
* `successArray posts`: the body parsed as a JSON array of RemotePost
  records;
* `successNonArray body`: the body parsed as JSON but is not an array
  (so `.sort`, `.map` and `.filter` are not functions on it). -/
inductive Upstream where
  | failure
  | successArray (posts : List RemotePost)
  | successNonArray (body : JsonValue) (notArray : body.isArray = false)

/-- JavaScript truthiness of `objReturned.ID`, a possibly-undefined
number: `undefined` and `0` are falsy, every other number is truthy. -/
def jsTruthyNum : Option Int → Bool
  | none => false
  | some n => n != 0

/-- JavaScript `v || two-quotes` for a possibly-undefined string field:
`undefined` and the empty string are falsy and give the fallback. -/
def jsOrEmpty : Option String → String
  | none => ""
  | some s => if s == "" then "" else s

/-- The boolean order on records induced by the comparator passed to
`jsonObj.sort(function (a, b) { return a.post_title.localeCompare(b.post_title); })`:
`a` may sit at or before `b` when the comparator is non-positive. -/
def titleLE (lc : String → String → Int) (a b : RemotePost) : Bool :=
  decide (lc a.post_title b.post_title ≤ 0)

/-- The field mapping of `getSortedPostsData`:
`{ id: item.ID.toString(), title: item.post_title, date: item.post_date }`. -/
def toPostSummary (item : RemotePost) : PostSummary :=
  { id := toString item.ID
    title := item.post_title
    date := item.post_date }

/-- `getSortedPostsData()` of `src/lib/posts.js` (lines 148-181), under a
comparator `lc` embedding `String.prototype.localeCompare`.  The catch
branch returns the empty array; on an array body the code sorts by title
and maps each record to a `PostSummary`; on a non-array JSON body the
uncaught `jsonObj.sort` call raises `TypeError`. -/
def getSortedPostsData (lc : String → String → Int) :
    Upstream → Except JsError (List PostSummary)
  | .failure => .ok []
  | .successArray posts =>
      .ok ((posts.mergeSort (titleLE lc)).map toPostSummary)
  | .successNonArray _ _ =>
      .error { message := "TypeError: jsonObj.sort is not a function" }

/-- The field mapping of `getAllPostIds`:
`{ params: { id: item.ID.toString() } }`. -/
def toRouteKey (item : RemotePost) : RouteKey :=
  { params := { id := toString item.ID } }

/-- `getAllPostIds()` of `src/lib/posts.js` (lines 205-234).  The catch
branch returns the empty array; on an array body the code maps each
record to a `RouteKey` in response order, with no sorting; on a
non-array JSON body the uncaught `jsonObj.map` call raises `TypeError`. -/
def getAllPostIds : Upstream → Except JsError (List RouteKey)
  | .failure => .ok []
  | .successArray posts => .ok (posts.map toRouteKey)
  | .successNonArray _ _ =>
      .error { message := "TypeError: jsonObj.map is not a function" }

/-- The fallback object the catch branch of `getPostData` returns, with
`nowISO` standing for `new Date().toISOString()`. -/
def errorPost (nowISO idRequested : String) : PostDetail :=
  { id := idRequested
    title := "Error loading post"
    date := nowISO
    contentHtml := "<p>Unable to load post content.</p>" }

/-- The filter predicate of `getPostData`:
`obj.ID.toString() === idRequested`. -/
def matchesId (idRequested : String) (obj : RemotePost) : Bool :=
  toString obj.ID == idRequested

/-- Lines 280-290 of `getPostData`: `objMatch` is
`jsonObj.filter(obj => obj.ID.toString() === idRequested)` and
`objReturned` is `objMatch[0]` when `objMatch.length > 0`, else the
empty object (modelled as `none`). -/
def firstMatch (idRequested : String) (posts : List RemotePost) :
    Option RemotePost :=
  match posts.filter (matchesId idRequested) with
  | [] => none
  | o :: _ => some o

/-- Lines 294-299 of `getPostData`, building the returned object from
`objReturned`: `objReturned.ID ? objReturned.ID.toString() : idRequested`
for `id`, and `field || two-quotes` for the three string fields (an
absent field reads as `undefined`, hence the `Option`). -/
def detailFrom (idRequested : String) (objReturned : Option RemotePost) :
    PostDetail :=
  { id := match objReturned with
          | some o => if jsTruthyNum (some o.ID) then toString o.ID
                      else idRequested
          | none => idRequested
    title := jsOrEmpty (objReturned.map RemotePost.post_title)
    date := jsOrEmpty (objReturned.map RemotePost.post_date)
    contentHtml := jsOrEmpty (objReturned.map RemotePost.post_content) }

/-- `getPostData(idRequested)` of `src/lib/posts.js` (lines 253-300),
with `nowISO` standing for `new Date().toISOString()` at the invocation
instant.  The catch branch returns `errorPost`; on an array body the
code keeps the first record whose stringified `ID` equals the request
(`firstMatch`) and builds the result with the fallbacks of lines
294-299 (`detailFrom`); on a non-array JSON body the uncaught
`jsonObj.filter` call raises `TypeError`. -/
def getPostData (nowISO idRequested : String) :
    Upstream → Except JsError PostDetail
  | .failure => .ok (errorPost nowISO idRequested)
  | .successArray posts =>
      .ok (detailFrom idRequested (firstMatch idRequested posts))
  | .successNonArray _ _ =>
      .error { message := "TypeError: jsonObj.filter is not a function" }

/-- A concrete consistent comparator standing in for `localeCompare` in
witnesses: the lexicographic order of `String`. -/
def lcString (a b : String) : Int :=
  if a < b then -1 else if b < a then 1 else 0

/-- The two upstream records of the scenario in the specification. -/
def demoPosts : List RemotePost :=
  [{ ID := 3, post_title := "Beta", post_date := "2025-01-02 10:00:00",
     post_content := "<p>b</p>" },
   { ID := 1, post_title := "Alpha", post_date := "2025-01-01 09:00:00",
     post_content := "<p>a</p>" }]

/-! ## Helper lemmas -/

theorem filter_head?_eq_find? {α : Type} (p : α → Bool) :
    ∀ l : List α, (l.filter p).head? = l.find? p := by
  intro l
  induction l with
  | nil => rfl
  | cons a t ih =>
      cases h : p a <;> simp [List.filter_cons, List.find?, h, ih]

theorem firstMatch_eq_find? (idRequested : String) (posts : List RemotePost) :
    firstMatch idRequested posts = posts.find? (matchesId idRequested) := by
  rw [← filter_head?_eq_find?]
  unfold firstMatch
  cases posts.filter (matchesId idRequested) <;> rfl

theorem jsOrEmpty_some (s : String) : jsOrEmpty (some s) = s := by
  by_cases h : s = "" <;> simp [jsOrEmpty, h]

theorem detailFrom_none (idRequested : String) :
    detailFrom idRequested none =
      { id := idRequested, title := "", date := "", contentHtml := "" } := rfl

theorem detailFrom_some (idRequested : String) (m : RemotePost)
    (hid : toString m.ID = idRequested) :
    detailFrom idRequested (some m) =
      { id := idRequested, title := m.post_title, date := m.post_date,
        contentHtml := m.post_content } := by
  by_cases h0 : m.ID = 0 <;>
    simp [detailFrom, jsOrEmpty_some, jsTruthyNum, h0, hid]

theorem getPostData_find?_some (nowISO idRequested : String)
    (posts : List RemotePost) (m : RemotePost)
    (hfind : posts.find? (matchesId idRequested) = some m) :
    getPostData nowISO idRequested (.successArray posts) =
      .ok { id := idRequested, title := m.post_title, date := m.post_date,
            contentHtml := m.post_content } := by
  have hid : toString m.ID = idRequested := by
    simpa [matchesId] using List.find?_some hfind
  show Except.ok (detailFrom idRequested (firstMatch idRequested posts)) = _
  rw [firstMatch_eq_find?, hfind, detailFrom_some idRequested m hid]

theorem getPostData_find?_none (nowISO idRequested : String)
    (posts : List RemotePost)
    (hfind : posts.find? (matchesId idRequested) = none) :
    getPostData nowISO idRequested (.successArray posts) =
      .ok { id := idRequested, title := "", date := "", contentHtml := "" } := by
  show Except.ok (detailFrom idRequested (firstMatch idRequested posts)) = _
  rw [firstMatch_eq_find?, hfind, detailFrom_none]

theorem titleLE_trans (lc : String → String → Int)
    (htrans : ∀ a b c : String, lc a b ≤ 0 → lc b c ≤ 0 → lc a c ≤ 0) :
    ∀ a b c : RemotePost, titleLE lc a b → titleLE lc b c → titleLE lc a c := by
  intro a b c hab hbc
  simp only [titleLE, decide_eq_true_eq] at *
  exact htrans _ _ _ hab hbc

theorem titleLE_total (lc : String → String → Int)
    (htotal : ∀ a b : String, lc a b ≤ 0 ∨ lc b a ≤ 0) :
    ∀ a b : RemotePost, titleLE lc a b || titleLE lc b a := by
  intro a b
  simp only [titleLE, Bool.or_eq_true, decide_eq_true_eq]
  exact htotal _ _

theorem lcString_le_zero (a b : String) : lcString a b ≤ 0 ↔ a ≤ b := by
  unfold lcString
  split_ifs with h1 h2
  · simp [le_of_lt h1]
  · simp [not_le.mpr h2]
  · simp [not_lt.mp h2]

theorem lcString_trans :
    ∀ a b c : String, lcString a b ≤ 0 → lcString b c ≤ 0 → lcString a c ≤ 0 := by
  intro a b c hab hbc
  rw [lcString_le_zero] at *
  exact le_trans hab hbc

theorem lcString_total : ∀ a b : String, lcString a b ≤ 0 ∨ lcString b a ≤ 0 := by
  intro a b
  rw [lcString_le_zero, lcString_le_zero]
  exact le_total a b

/-- The concrete malformed-but-parseable response body of the
counterexamples: the fetch succeeds and the body `"{}"` parses as the
empty JSON object, which is not an array. -/
def nonArrayUpstream : Upstream :=
  Upstream.successNonArray (JsonValue.object []) rfl

/-! ## Claims -/

/-- C2 (amended): for every upstream failure the try/catch of the source
intercepts - network error, non-2xx HTTP status, or a response body that
is not valid JSON - `getSortedPostsData` and `getAllPostIds` never throw
and return an empty sequence.  A body that parses as JSON but is not a
RemotePost array is not intercepted and raises a `TypeError` (see the
counterexample). -/
theorem claim_C2_empty_on_failure (lc : String → String → Int) :
    getSortedPostsData lc Upstream.failure = .ok [] ∧
    getAllPostIds Upstream.failure = .ok [] :=
  ⟨rfl, rfl⟩

/-- C2 counterexample: on the body `"{}"`, which parses as JSON but
cannot be handled as a RemotePost sequence, both operations throw a
`TypeError` (the uncaught `jsonObj.sort` and `jsonObj.map` calls)
instead of returning the empty sequence. -/
theorem claim_C2_counterexample :
    getSortedPostsData lcString nonArrayUpstream =
      .error { message := "TypeError: jsonObj.sort is not a function" } ∧
    getSortedPostsData lcString nonArrayUpstream ≠ .ok [] ∧
    getAllPostIds nonArrayUpstream =
      .error { message := "TypeError: jsonObj.map is not a function" } ∧
    getAllPostIds nonArrayUpstream ≠ .ok [] := by
  refine ⟨rfl, ?_, rfl, ?_⟩ <;>
    simp [getSortedPostsData, getAllPostIds, nonArrayUpstream]

/-- C3: on every transport or parse failure and for every requested id,
`getPostData` returns (rather than propagating the failure) the
synthetic detail whose id echoes the request, whose title is exactly
"Error loading post", whose date is the ISO rendering of the current
instant (`nowISO` models `new Date().toISOString()`), and whose content
is the fixed non-empty error markup. -/
theorem claim_C3_error_fallback (nowISO idRequested : String) :
    getPostData nowISO idRequested Upstream.failure =
      .ok { id := idRequested, title := "Error loading post", date := nowISO,
            contentHtml := "<p>Unable to load post content.</p>" } ∧
    (errorPost nowISO idRequested).contentHtml ≠ "" :=
  ⟨rfl, by simp [errorPost]⟩

/-- C6: on a successful fetch of a RemotePost array, `getAllPostIds`
returns one RouteKey per record, the i-th key holding the stringified
numeric ID of the i-th record (upstream order, no sorting), so the
output length equals the upstream collection length. -/
theorem claim_C6_route_keys_order (posts : List RemotePost) :
    ∃ keys, getAllPostIds (Upstream.successArray posts) = .ok keys ∧
      keys.length = posts.length ∧
      ∀ i : Nat, keys[i]? = (posts[i]?).map toRouteKey := by
  refine ⟨posts.map toRouteKey, rfl, List.length_map posts toRouteKey, ?_⟩
  intro i
  simp

/-- C7 (amended): for every requested id, `getPostData` does not throw
and returns a (well-formed, fully string-typed) `PostDetail` on every
transport or parse failure and on every successful fetch of a
RemotePost array, with or without a matching record.  A response body
that parses as JSON but is not an array is not covered: there the
uncaught `jsonObj.filter` call throws a `TypeError` (see the
counterexample). -/
theorem claim_C7_always_detail (nowISO idRequested : String) :
    (∃ d, getPostData nowISO idRequested Upstream.failure = .ok d) ∧
    ∀ posts : List RemotePost,
      ∃ d, getPostData nowISO idRequested (Upstream.successArray posts) = .ok d :=
  ⟨⟨_, rfl⟩, fun _ => ⟨_, rfl⟩⟩

/-- C7 counterexample: on the body `"{}"`, which parses as JSON but is
not an array, `getPostData` throws a `TypeError` (the uncaught
`jsonObj.filter` call of line 280 sits outside the try/catch) and
returns no PostDetail at all, well-formed or otherwise. -/
theorem claim_C7_counterexample :
    getPostData "2025-01-01T00:00:00.000Z" "5" nonArrayUpstream =
      .error { message := "TypeError: jsonObj.filter is not a function" } ∧
    ∀ d : PostDetail,
      getPostData "2025-01-01T00:00:00.000Z" "5" nonArrayUpstream ≠ .ok d := by
  refine ⟨rfl, fun d h => ?_⟩
  simp [getPostData, nonArrayUpstream] at h

/-- C9 (amended): each operation is a deterministic function of the
upstream outcome and its arguments; for `getSortedPostsData` and
`getAllPostIds` the outcome alone fixes the result, and the success path
of `getPostData` does not depend on the invocation instant - but the
failure fallback of `getPostData` embeds `new Date().toISOString()`, so
its result under a fixed failure outcome varies with the invocation
instant (see the counterexample). -/
theorem claim_C9_success_time_independent (now1 now2 idRequested : String)
    (posts : List RemotePost) :
    getPostData now1 idRequested (Upstream.successArray posts) =
      getPostData now2 idRequested (Upstream.successArray posts) ∧
    getPostData now1 idRequested Upstream.failure =
      .ok (errorPost now1 idRequested) :=
  ⟨rfl, rfl⟩

/-- C9 counterexample: two invocations of `getPostData` with the same
argument and the same upstream failure outcome, one second apart, return
different results - the `date` of the fallback detail is the invocation
instant. -/
theorem claim_C9_counterexample :
    getPostData "2025-01-01T00:00:00.000Z" "5" Upstream.failure ≠
      getPostData "2025-01-01T00:00:01.000Z" "5" Upstream.failure := by
  simp [getPostData, errorPost]

/-- C1: on a successful fetch of a RemotePost array, and for any
consistent locale collation `lc` (`localeCompare` induces a total
preorder), `getSortedPostsData` returns one PostSummary per record -
its output is a permutation of the field-mapped records, each with
stringified numeric id, upstream title and unmodified date - sorted
non-decreasing by title under `lc`. -/
theorem claim_C1_summaries_sorted (lc : String → String → Int)
    (htrans : ∀ a b c : String, lc a b ≤ 0 → lc b c ≤ 0 → lc a c ≤ 0)
    (htotal : ∀ a b : String, lc a b ≤ 0 ∨ lc b a ≤ 0)
    (posts : List RemotePost) :
    ∃ res, getSortedPostsData lc (Upstream.successArray posts) = .ok res ∧
      res.Perm (posts.map toPostSummary) ∧
      res.Pairwise (fun a b => lc a.title b.title ≤ 0) := by
  refine ⟨(posts.mergeSort (titleLE lc)).map toPostSummary, rfl, ?_, ?_⟩
  · exact (List.mergeSort_perm posts (titleLE lc)).map toPostSummary
  · have hs := List.sorted_mergeSort
      (titleLE_trans lc htrans) (titleLE_total lc htotal) posts
    refine List.pairwise_map.mpr (hs.imp ?_)
    intro a b h
    simpa [titleLE, toPostSummary] using h

/-- C1 witness: the theorem applied to the scenario upstream of the
specification under the concrete collation `lcString`. -/
theorem claim_C1_witness :
    ∃ res, getSortedPostsData lcString (Upstream.successArray demoPosts) = .ok res ∧
      res.Perm (demoPosts.map toPostSummary) ∧
      res.Pairwise (fun a b => lcString a.title b.title ≤ 0) :=
  claim_C1_summaries_sorted lcString lcString_trans lcString_total demoPosts

/-- C10: on a successful fetch of a RemotePost array, the output of
`getSortedPostsData` is a permutation of the field-mapped records, and
the sort is stable: two records whose titles compare equal under the
collation keep their upstream relative order. -/
theorem claim_C10_perm_and_stable (lc : String → String → Int)
    (htrans : ∀ a b c : String, lc a b ≤ 0 → lc b c ≤ 0 → lc a c ≤ 0)
    (htotal : ∀ a b : String, lc a b ≤ 0 ∨ lc b a ≤ 0)
    (posts : List RemotePost) :
    ∃ res, getSortedPostsData lc (Upstream.successArray posts) = .ok res ∧
      res.Perm (posts.map toPostSummary) ∧
      ∀ a b : RemotePost, lc a.post_title b.post_title = 0 →
        [a, b].Sublist posts →
        [toPostSummary a, toPostSummary b].Sublist res := by
  refine ⟨(posts.mergeSort (titleLE lc)).map toPostSummary, rfl, ?_, ?_⟩
  · exact (List.mergeSort_perm posts (titleLE lc)).map toPostSummary
  · intro a b heq hsub
    have hab : titleLE lc a b := by simp [titleLE, heq]
    have hpair := List.pair_sublist_mergeSort
      (titleLE_trans lc htrans) (titleLE_total lc htotal) hab hsub
    simpa using hpair.map toPostSummary

/-- C10 witness: the theorem applied to the scenario upstream of the
specification under the concrete collation `lcString`. -/
theorem claim_C10_witness :
    ∃ res, getSortedPostsData lcString (Upstream.successArray demoPosts) = .ok res ∧
      res.Perm (demoPosts.map toPostSummary) ∧
      ∀ a b : RemotePost, lcString a.post_title b.post_title = 0 →
        [a, b].Sublist demoPosts →
        [toPostSummary a, toPostSummary b].Sublist res :=
  claim_C10_perm_and_stable lcString lcString_trans lcString_total demoPosts

/-- C4: on a successful fetch, when some record's stringified ID equals
the requested id, `getPostData` takes the first such record in upstream
order (`find?`) and returns its title, date and content verbatim with
the requested id echoed back; the content is passed through raw, with no
transformation. -/
theorem claim_C4_detail_match (nowISO idRequested : String)
    (posts : List RemotePost) (m : RemotePost)
    (hfind : posts.find? (matchesId idRequested) = some m) :
    getPostData nowISO idRequested (Upstream.successArray posts) =
      .ok { id := idRequested, title := m.post_title, date := m.post_date,
            contentHtml := m.post_content } :=
  getPostData_find?_some nowISO idRequested posts m hfind

/-- C4 witness: the scenario of the specification, requesting id "3"
against the demo upstream yields the Beta record verbatim. -/
theorem claim_C4_witness :
    getPostData "2025-06-01T00:00:00.000Z" "3" (Upstream.successArray demoPosts) =
      .ok { id := "3", title := "Beta", date := "2025-01-02 10:00:00",
            contentHtml := "<p>b</p>" } :=
  claim_C4_detail_match "2025-06-01T00:00:00.000Z" "3" demoPosts
    { ID := 3, post_title := "Beta", post_date := "2025-01-02 10:00:00",
      post_content := "<p>b</p>" } (by decide)

/-- C5: on a successful fetch, when no record's stringified ID equals
the requested id, `getPostData` returns exactly the requested id echoed
back with title, date and content all empty strings. -/
theorem claim_C5_detail_absent (nowISO idRequested : String)
    (posts : List RemotePost)
    (habsent : ∀ p ∈ posts, toString p.ID ≠ idRequested) :
    getPostData nowISO idRequested (Upstream.successArray posts) =
      .ok { id := idRequested, title := "", date := "", contentHtml := "" } := by
  apply getPostData_find?_none
  rw [List.find?_eq_none]
  intro x hx
  simpa [matchesId] using habsent x hx

/-- C5 witness: the scenario of the specification, requesting id "99"
against the demo upstream yields the all-empty detail. -/
theorem claim_C5_witness :
    getPostData "2025-06-01T00:00:00.000Z" "99" (Upstream.successArray demoPosts) =
      .ok { id := "99", title := "", date := "", contentHtml := "" } :=
  claim_C5_detail_absent "2025-06-01T00:00:00.000Z" "99" demoPosts (by decide)

/-- C8: every derived id is the canonical string form of the upstream
numeric identifier - each PostSummary id and each RouteKey id is
`toString` of the ID of a fetched record, the detail id always echoes
the requested string - and the lookup of `getPostData` compares the
requested string against the stringified numeric ID: a record whose ID
stringifies to the request is found and its detail id equals that
canonical string. -/
theorem claim_C8_canonical_ids (lc : String → String → Int)
    (nowISO idRequested : String) (posts : List RemotePost) :
    (∀ res, getSortedPostsData lc (Upstream.successArray posts) = .ok res →
       ∀ s ∈ res, ∃ p ∈ posts, s.id = toString p.ID) ∧
    (∀ keys, getAllPostIds (Upstream.successArray posts) = .ok keys →
       ∀ k ∈ keys, ∃ p ∈ posts, k.params.id = toString p.ID) ∧
    (∀ d, getPostData nowISO idRequested (Upstream.successArray posts) = .ok d →
       d.id = idRequested) ∧
    ((∃ p ∈ posts, toString p.ID = idRequested) →
       ∃ m ∈ posts, toString m.ID = idRequested ∧
         getPostData nowISO idRequested (Upstream.successArray posts) =
           .ok { id := idRequested, title := m.post_title, date := m.post_date,
                 contentHtml := m.post_content }) := by
  refine ⟨?_, ?_, ?_, ?_⟩
  · intro res hres s hs
    have hr : res = (posts.mergeSort (titleLE lc)).map toPostSummary :=
      (Except.ok.inj hres).symm
    subst hr
    obtain ⟨p, hp, hfp⟩ := List.mem_map.mp hs
    exact ⟨p, List.mem_mergeSort.mp hp, by rw [← hfp]; rfl⟩
  · intro keys hkeys k hk
    have hr : keys = posts.map toRouteKey := (Except.ok.inj hkeys).symm
    subst hr
    obtain ⟨p, hp, hfp⟩ := List.mem_map.mp hk
    exact ⟨p, hp, by rw [← hfp]; rfl⟩
  · intro d hd
    cases hf : posts.find? (matchesId idRequested) with
    | none =>
        rw [getPostData_find?_none nowISO idRequested posts hf] at hd
        have h := Except.ok.inj hd
        subst h
        rfl
    | some m =>
        rw [getPostData_find?_some nowISO idRequested posts m hf] at hd
        have h := Except.ok.inj hd
        subst h
        rfl
  · intro hexists
    have hsome : (posts.find? (matchesId idRequested)).isSome := by
      rw [List.find?_isSome]
      obtain ⟨p, hp, hpid⟩ := hexists
      exact ⟨p, hp, by simp [matchesId, hpid]⟩
    obtain ⟨m, hm⟩ := Option.isSome_iff_exists.mp hsome
    refine ⟨m, List.mem_of_find?_eq_some hm, ?_,
      getPostData_find?_some nowISO idRequested posts m hm⟩
    simpa [matchesId] using List.find?_some hm
